import Mathlib

/-!
Verification development for the Google Drive upload relay (`server.js`).

The server is an Express application with three routes: `POST /upload`,
`GET /health` and `POST /test-auth`.  Each request handler is a pure
function of the inbound request data once the two external effects are
abstracted: the local filesystem existence check (`fs.existsSync`) and the
Google Drive client calls (`drive.files.create`, `drive.files.list`).  We
embed the handlers as Lean functions parameterised by those two oracles.

JavaScript string values coming from headers or the JSON body may be
absent (`undefined`) or present; we model them as `Option String`.  The
source tests such values for *truthiness* (`if (x)`, `x || d`, `x && p`):
for strings, `undefined` and the empty string are falsy.  The helpers
`jsTruthy`, `jsOrStr` and `jsOrNat` model those JavaScript idioms exactly.
-/

set_option autoImplicit false

namespace GDriveRelay

/-- JavaScript truthiness of an optional string: absent (`undefined`) and
the empty string are falsy, every other string is truthy. -/
def jsTruthy : Option String → Bool
  | none => false
  | some s => !(s == "")

/-- JavaScript `x || d` for an optional string `x` and string default `d`:
the default is used when `x` is absent or empty (falsy). -/
def jsOrStr : Option String → String → String
  | none, d => d
  | some s, d => if s == "" then d else s

/-- JavaScript `x || d` for an optional number `x` and default `d`: the
default is used when `x` is absent or `0` (falsy). -/
def jsOrNat : Option Nat → Nat → Nat
  | none, d => d
  | some n, d => if n == 0 then d else n

/-- The two request headers the server reads (`req.headers.authorization`
and `req.headers[\x27x-goog-authenticated-user-oauth2\x27]`); Node
lower-cases header names, and a header may be absent or carry any string
value, including the empty string. -/
structure Headers where
  authorization : Option String
  xGoogAuthenticatedUserOauth2 : Option String
deriving DecidableEq, Repr

/-- Kernel-reducible model of JavaScript `s.startsWith(p)`: character-level
prefix test (the strings involved are compared code point by code point). -/
def strStartsWith (s p : String) : Bool :=
  p.toList.isPrefixOf s.toList

/-- Kernel-reducible model of JavaScript `s.substring(n)`: drop the first
`n` characters (`n` units of the already-matched ASCII prefix). -/
def strDrop (s : String) (n : Nat) : String :=
  String.mk (s.toList.drop n)

/-- Kernel-reducible model of JavaScript `s.substring(0, n)`: take the
first `n` characters. -/
def strTake (s : String) (n : Nat) : String :=
  String.mk (s.toList.take n)

/-- Source `extractAccessToken` (server.js lines 27-40): if the
`Authorization` header is truthy and starts with the literal
`Bearer ` (with a single space), return `authHeader.substring(7)`;
else if the alternate header is truthy, return its value;
else return `null`. -/
def extractAccessToken (h : Headers) : Option String :=
  if jsTruthy h.authorization && strStartsWith (h.authorization.getD "") "Bearer " then
    some (strDrop (h.authorization.getD "") 7)
  else if jsTruthy h.xGoogAuthenticatedUserOauth2 then
    h.xGoogAuthenticatedUserOauth2
  else
    none

/-- Node `path.basename` on POSIX (the runtime is Linux): trailing path
separators are ignored, and the portion after the last remaining `/` is
returned; the basename of `/` and of the empty string is the empty
string. -/
def basename (p : String) : String :=
  let r := p.toList.reverse.dropWhile (fun c => c = '/')
  String.mk ((r.takeWhile (fun c => c != '/')).reverse)

/-- JSON body of `POST /upload` as destructured by the handler
(server.js line 78): four string fields, each possibly absent. -/
structure UploadBody where
  filePath : Option String
  fileName : Option String
  folderId : Option String
  mimeType : Option String
deriving DecidableEq, Repr

/-- One entry of a `details` array in the error envelopes the server
returns, and in the `errors` array of a Google error payload.  Fields the
source omits in a given literal are `none` (JSON serialisation drops
`undefined` fields). -/
structure ErrorDetail where
  message : Option String
  domain : Option String
  reason : Option String
  location : Option String
  locationType : Option String
deriving DecidableEq, Repr

/-- The six fields requested from `drive.files.create` by
`fields: \x27id, name, webViewLink, webContentLink, mimeType, size\x27`
(server.js line 133); each may be absent on the returned `response.data`. -/
structure DriveFile where
  id : Option String
  name : Option String
  webViewLink : Option String
  webContentLink : Option String
  mimeType : Option String
  size : Option String
deriving DecidableEq, Repr

/-- The Google error payload `error.response.data.error` examined by the
catch block (server.js lines 155-176). -/
structure GoogleErrorPayload where
  code : Option Int
  message : Option String
  errors : Option (List ErrorDetail)
deriving DecidableEq, Repr

/-- The `data` member of `error.response`. -/
structure JsErrorData where
  error : Option GoogleErrorPayload
deriving DecidableEq, Repr

/-- The `response` member of a thrown error (present for HTTP-level
failures of the Google client, absent for local errors). -/
structure JsErrorResponse where
  status : Option Nat
  data : Option JsErrorData
deriving DecidableEq, Repr

/-- A JavaScript error caught by the upload handler: its `message` and its
optional `response` structure. -/
structure JsError where
  message : Option String
  response : Option JsErrorResponse
deriving DecidableEq, Repr

/-- The truthiness chain `error.response && error.response.data &&
error.response.data.error` (server.js line 155): returns the response
status together with the Google error payload when the whole chain is
present, `none` otherwise. -/
def structuredOf (e : JsError) : Option (Option Nat × GoogleErrorPayload) :=
  match e.response with
  | none => none
  | some r =>
    match r.data with
    | none => none
    | some d =>
      match d.error with
      | none => none
      | some ge => some (r.status, ge)

/-- Outcome of the abstracted `drive.files.create` call: either the
`response.data` record or a thrown error. -/
inductive UploadResult where
  | success (data : DriveFile)
  | failure (e : JsError)
deriving DecidableEq, Repr

/-- The `fileMetadata` object built at server.js lines 110-118: `name`,
`mimeType`, and an optional `parents` array. -/
structure FileMetadata where
  name : String
  mimeType : String
  parents : Option (List String)
deriving DecidableEq, Repr

/-- Source lines 110-118: `name: fileName || path.basename(filePath)`,
`mimeType: mimeType || \x27video/mp4\x27`, and
`if (folderId && folderId !== \x27root\x27) fileMetadata.parents = [folderId]`. -/
def buildFileMetadata (filePath : String) (fileName folderId mimeType : Option String) :
    FileMetadata :=
  let base : FileMetadata :=
    { name := jsOrStr fileName (basename filePath)
      mimeType := jsOrStr mimeType "video/mp4"
      parents := none }
  if jsTruthy folderId && !((folderId.getD "") == "root") then
    { base with parents := some [folderId.getD ""] }
  else
    base

/-- JSON body of a `/upload` response: either an error envelope
`\x7b error, details \x7d` or the success envelope `\x7b file \x7d`. -/
inductive UploadRespBody where
  | errBody (error : String) (details : List ErrorDetail)
  | fileBody (file : DriveFile)
deriving DecidableEq, Repr

/-- Everything observable about one run of the `/upload` handler: the HTTP
status and JSON body sent, the metadata passed to `drive.files.create`
when that call was made (`none` when no provider call was attempted), and
the console log lines emitted. -/
structure UploadOutcome where
  status : Nat
  body : UploadRespBody
  providerCall : Option FileMetadata
  logs : List String
deriving DecidableEq, Repr

/-- Status and body of an outcome, i.e. the HTTP response proper. -/
def respOf (o : UploadOutcome) : Nat × UploadRespBody :=
  (o.status, o.body)

/-- Detail literal of the 401 response for a missing token
(server.js lines 56-62). -/
def noAccessTokenDetail : ErrorDetail :=
  { message := some "No access token provided"
    domain := some "global"
    reason := some "authError"
    location := some "Authorization"
    locationType := some "header" }

/-- Detail literal of the 400 response for a missing `filePath`
(server.js lines 83-89). -/
def filePathRequiredDetail : ErrorDetail :=
  { message := some "filePath is required"
    domain := some "global"
    reason := some "required"
    location := some "filePath"
    locationType := some "parameter" }

/-- Detail literal of the 404 response for a non-existent file
(server.js lines 99-105), naming the path. -/
def fileNotFoundDetail (fp : String) : ErrorDetail :=
  { message := some ("File not found: " ++ fp)
    domain := some "global"
    reason := some "notFound"
    location := some "filePath"
    locationType := some "parameter" }

/-- Synthesized detail of the 401 response for a Google 401 error
(server.js lines 162-168). -/
def expiredTokenDetail : ErrorDetail :=
  { message := some "The access token is expired or invalid"
    domain := some "global"
    reason := some "authError"
    location := some "Authorization"
    locationType := some "header" }

/-- Detail literal of the generic 500 response (server.js lines 182-186). -/
def internalErrorDetail (m : String) : ErrorDetail :=
  { message := some m
    domain := some "global"
    reason := some "internalError"
    location := none
    locationType := none }

/-- JSON string escaping for one character, as performed by
`JSON.stringify` on the backslash and double-quote characters (control
characters do not occur in the values we model). -/
def jsonEscapeChar (c : Char) : String :=
  if c = '\\' then "\\\\"
  else if c = '\x22' then "\\\x22"
  else String.singleton c

/-- JSON string escaping of a whole string value. -/
def jsonEscape (s : String) : String :=
  String.join (s.toList.map jsonEscapeChar)

/-- One pretty-printed member line of a `JSON.stringify(.., null, 2)`
object: two spaces of indent, the quoted key, a colon and the quoted
escaped value. -/
def jsonMember (k v : String) : String :=
  "  \x22" ++ k ++ "\x22: \x22" ++ jsonEscape v ++ "\x22"

/-- Pretty-printed `JSON.stringify(obj, null, 2)` of an object given its
present members in order: `\x7b\x7d` when empty, otherwise one member per
line between braces. -/
def jsonObject (ms : List String) : String :=
  if ms.isEmpty then "\x7b\x7d"
  else "\x7b\n" ++ String.intercalate ",\n" ms ++ "\n\x7d"

/-- The text of `JSON.stringify(req.headers, null, 2)` (server.js line 45)
restricted to the two headers of the model; absent headers contribute no
member. -/
def stringifyHeaders (h : Headers) : String :=
  jsonObject
    ((match h.authorization with
      | some a => [jsonMember "authorization" a]
      | none => []) ++
     (match h.xGoogAuthenticatedUserOauth2 with
      | some v => [jsonMember "x-goog-authenticated-user-oauth2" v]
      | none => []))

/-- The text of `JSON.stringify(req.body, null, 2)` (server.js line 46)
over the four body fields of the model. -/
def stringifyBody (b : UploadBody) : String :=
  jsonObject
    ((match b.filePath with
      | some v => [jsonMember "filePath" v]
      | none => []) ++
     (match b.fileName with
      | some v => [jsonMember "fileName" v]
      | none => []) ++
     (match b.folderId with
      | some v => [jsonMember "folderId" v]
      | none => []) ++
     (match b.mimeType with
      | some v => [jsonMember "mimeType" v]
      | none => []))

/-- Rendering of the `fileMetadata` object for the
`console.log(\x27Metadados:\x27, fileMetadata)` line (server.js line 127),
in the style of Node `util.inspect`. -/
def inspectFileMetadata (m : FileMetadata) : String :=
  "\x7b name: \x27" ++ m.name ++ "\x27, mimeType: \x27" ++ m.mimeType ++ "\x27" ++
  (match m.parents with
   | some ps =>
     ", parents: [ " ++ String.intercalate ", " (ps.map (fun p => "\x27" ++ p ++ "\x27")) ++ " ]"
   | none => "") ++ " \x7d"

/-- Rendering of an optional string field for `util.inspect` style output:
`undefined` when absent, quoted when present. -/
def inspectOptStr (v : Option String) : String :=
  match v with
  | some s => "\x27" ++ s ++ "\x27"
  | none => "undefined"

/-- Rendering of the `response.data` record for the
`console.log(\x27Resposta:\x27, response.data)` line (server.js line 137). -/
def inspectDriveFile (d : DriveFile) : String :=
  "\x7b id: " ++ inspectOptStr d.id ++
  ", name: " ++ inspectOptStr d.name ++
  ", webViewLink: " ++ inspectOptStr d.webViewLink ++
  ", webContentLink: " ++ inspectOptStr d.webContentLink ++
  ", mimeType: " ++ inspectOptStr d.mimeType ++
  ", size: " ++ inspectOptStr d.size ++ " \x7d"

/-- Rendering of a caught error object for the
`console.error(\x27Erro durante o upload:\x27, error)` line (server.js
line 152); we abstract the Node error dump to the error message. -/
def inspectJsError (e : JsError) : String :=
  "[Error: " ++ (e.message.getD "") ++ "]"

/-- The `POST /upload` handler (server.js lines 43-189) as a function of
the inbound headers and body and of the two external effects: the
`fs.existsSync` oracle and the `drive.files.create` oracle.  The returned
outcome records the HTTP response, whether (and with which metadata) the
provider call was made, and the console output.  The construction of the
OAuth2 client (lines 69-75) has no observable effect and is elided; the
`media` stream object (lines 121-124) carries no data used by the
response. -/
def uploadHandler (h : Headers) (b : UploadBody) (fileExists : String → Bool)
    (driveCreate : FileMetadata → UploadResult) : UploadOutcome :=
  let logs0 : List String :=
    ["=== Nova requisição de upload ===",
     "Headers: " ++ stringifyHeaders h,
     "Body: " ++ stringifyBody b]
  let accessToken := extractAccessToken h
  if !(jsTruthy accessToken) then
    { status := 401
      body := .errBody "Invalid Credentials" [noAccessTokenDetail]
      providerCall := none
      logs := logs0 ++ ["Token não encontrado nos headers"] }
  else
    let logs1 := logs0 ++
      ["Token encontrado: " ++ strTake (accessToken.getD "") 20 ++ "..."]
    if !(jsTruthy b.filePath) then
      { status := 400
        body := .errBody "Bad Request" [filePathRequiredDetail]
        providerCall := none
        logs := logs1 }
    else
      let fp := b.filePath.getD ""
      let logs2 := logs1 ++ ["Tentando fazer upload do arquivo: " ++ fp]
      if !(fileExists fp) then
        { status := 404
          body := .errBody "File Not Found" [fileNotFoundDetail fp]
          providerCall := none
          logs := logs2 }
      else
        let meta := buildFileMetadata fp b.fileName b.folderId b.mimeType
        let logs3 := logs2 ++
          ["Iniciando upload para o Google Drive...",
           "Metadados: " ++ inspectFileMetadata meta]
        match driveCreate meta with
        | .success data =>
          { status := 200
            body := .fileBody data
            providerCall := some meta
            logs := logs3 ++
              ["Upload concluído com sucesso!",
               "Resposta: " ++ inspectDriveFile data] }
        | .failure e =>
          let logsE := logs3 ++ ["Erro durante o upload: " ++ inspectJsError e]
          match structuredOf e with
          | some (st, ge) =>
            if ge.code == some 401 then
              { status := 401
                body := .errBody "Invalid Credentials" (ge.errors.getD [expiredTokenDetail])
                providerCall := some meta
                logs := logsE }
            else
              { status := jsOrNat st 500
                body := .errBody (jsOrStr ge.message "Google Drive API Error")
                                 (ge.errors.getD [])
                providerCall := some meta
                logs := logsE }
          | none =>
            { status := 500
              body := .errBody "Internal Server Error"
                               [internalErrorDetail (jsOrStr e.message "An unexpected error occurred")]
              providerCall := some meta
              logs := logsE }

/-- One file record returned by `drive.files.list` with
`fields: \x27files(id, name)\x27` (server.js lines 215-218). -/
structure ListedFile where
  id : Option String
  name : Option String
deriving DecidableEq, Repr

/-- Outcome of the abstracted `drive.files.list` call: the `files` array
of `response.data`, or a thrown error. -/
inductive ListResult where
  | success (files : List ListedFile)
  | failure (e : JsError)
deriving DecidableEq, Repr

/-- JSON body of a `/test-auth` response, one constructor per JSON shape
the source produces: the bare 401 error (line 206), the success envelope
(lines 220-224) whose first field is the literal string `authenticated`,
and the catch-all 401 with a `details` string (lines 227-230). -/
inductive TestAuthBody where
  | errorOnly (error : String)
  | authBody (statusField : String) (message : String) (testFile : Option ListedFile)
  | invalidToken (error : String) (details : Option String)
deriving DecidableEq, Repr

/-- Everything observable about one run of the `/test-auth` handler: HTTP
status, JSON body, and the `(pageSize, fields)` arguments of the
`drive.files.list` call when it was made. -/
structure TestAuthOutcome where
  status : Nat
  body : TestAuthBody
  listCall : Option (Nat × String)
deriving DecidableEq, Repr

/-- The `POST /test-auth` handler (server.js lines 201-232) as a function
of the inbound headers and of the `drive.files.list` oracle, which
receives the `pageSize` and `fields` arguments of the call.  The
`testFile` field is `response.data.files[0] || null`: the head of the
returned list, or `null` when the list is empty. -/
def testAuthHandler (h : Headers) (filesList : Nat → String → ListResult) : TestAuthOutcome :=
  let accessToken := extractAccessToken h
  if !(jsTruthy accessToken) then
    { status := 401
      body := .errorOnly "No access token provided"
      listCall := none }
  else
    match filesList 1 "files(id, name)" with
    | .success fs =>
      { status := 200
        body := .authBody "authenticated" "Token is valid" fs.head?
        listCall := some (1, "files(id, name)") }
    | .failure e =>
      { status := 401
        body := .invalidToken "Invalid token" e.message
        listCall := some (1, "files(id, name)") }

/-!
Claim C1 concerns `extractAccessToken`.  The claim, read literally, is the
statement `∀ h, extractAccessToken h = specExtractAccessToken h` for the
spec-worded extractor below.  It fails when the alternate header is
present with the empty string as value: JavaScript truthiness makes the
code skip the header, while the claim returns its raw (empty) value.
-/

/-- Written from the words of claim C1 (not from the source): return the
remainder after `Bearer ` when the `Authorization` header is present and
starts with that literal; otherwise the raw value of the
`x-goog-authenticated-user-oauth2` header when present; otherwise
absent. -/
def specExtractAccessToken (h : Headers) : Option String :=
  match h.authorization with
  | some a =>
    if strStartsWith a "Bearer " then some (strDrop a 7)
    else h.xGoogAuthenticatedUserOauth2
  | none => h.xGoogAuthenticatedUserOauth2

/-- Written from the words of claim C1 as amended: as before, except that
the alternate header is only used when its value is non-empty. -/
def specExtractAccessTokenNonempty (h : Headers) : Option String :=
  match h.authorization with
  | some a =>
    if strStartsWith a "Bearer " then some (strDrop a 7)
    else
      match h.xGoogAuthenticatedUserOauth2 with
      | some v => if v = "" then none else some v
      | none => none
  | none =>
    match h.xGoogAuthenticatedUserOauth2 with
    | some v => if v = "" then none else some v
    | none => none

/-- Claim C1 fails on the code: with no `Authorization` header and the
alternate header present but carrying the empty string, the code returns
no token (the header is falsy), while the claim dictates returning the
raw empty value. -/
theorem extractAccessToken_claim_counterexample :
    extractAccessToken ⟨none, some ""⟩ ≠ specExtractAccessToken ⟨none, some ""⟩ := by
  decide

/-- Claim C1 (amended): credential extraction returns the remainder after
the prefix `Bearer ` of the `Authorization` header when that header is
present and starts with the case-sensitive literal `Bearer `; otherwise
the raw value of the `x-goog-authenticated-user-oauth2` header when that
header is present with a non-empty value; otherwise absent — first match
winning, with no validation of the token format. -/
theorem extractAccessToken_matches_amended_spec (h : Headers) :
    extractAccessToken h = specExtractAccessTokenNonempty h := by
  obtain ⟨a, x⟩ := h
  cases a with
  | none =>
    cases x with
    | none => rfl
    | some v =>
      by_cases hv : v = "" <;>
        simp [extractAccessToken, specExtractAccessTokenNonempty, jsTruthy, hv]
  | some s =>
    by_cases hs : s = ""
    · subst hs
      have hB : strStartsWith "" "Bearer " = false := by decide
      cases x with
      | none => simp [extractAccessToken, specExtractAccessTokenNonempty, jsTruthy, hB]
      | some v =>
        by_cases hv : v = "" <;>
          simp [extractAccessToken, specExtractAccessTokenNonempty, jsTruthy, hv, hB]
    · by_cases hb : strStartsWith s "Bearer " = true
      · simp [extractAccessToken, specExtractAccessTokenNonempty, jsTruthy, hs, hb]
      · cases x with
        | none =>
          simp [extractAccessToken, specExtractAccessTokenNonempty, jsTruthy, hs,
            Bool.eq_false_iff.mpr hb]
        | some v =>
          by_cases hv : v = "" <;>
            simp [extractAccessToken, specExtractAccessTokenNonempty, jsTruthy, hs, hv,
              Bool.eq_false_iff.mpr hb]

/-!
Claim C2 concerns the precondition checks of `POST /upload`.  Read
literally it fails when `filePath` is present but empty: the field is not
missing, so the claim dictates the existence check and a 404, but the
JavaScript truthiness test `!filePath` short-circuits with 400.
-/

/-- Claim C2 fails on the code: with a valid bearer token and the body
field `filePath` present but equal to the empty string (hence not
missing), on a filesystem where no path exists, the handler answers 400
`Bad Request` instead of the 404 `File Not Found` the claim dictates for
a supplied, non-existent path. -/
theorem uploadHandler_claim_precondition_counterexample :
    (extractAccessToken ⟨some "Bearer tok123", none⟩).isSome = true ∧
    (⟨some "", none, none, none⟩ : UploadBody).filePath ≠ none ∧
    (fun _ => false : String → Bool) "" = false ∧
    respOf (uploadHandler ⟨some "Bearer tok123", none⟩ ⟨some "", none, none, none⟩
        (fun _ => false) (fun _ => .failure ⟨none, none⟩)) =
      (400, .errBody "Bad Request" [filePathRequiredDetail]) ∧
    (uploadHandler ⟨some "Bearer tok123", none⟩ ⟨some "", none, none, none⟩
        (fun _ => false) (fun _ => .failure ⟨none, none⟩)).status ≠ 404 := by
  decide

/-- Claim C2 (amended): the upload handler checks preconditions in order
and short-circuits with a distinct response — an extraction yielding no
token or the empty-string token gives HTTP 401 `Invalid Credentials`;
else a missing or empty `filePath` gives HTTP 400 `Bad Request`; else a
`filePath` that does not exist on the local filesystem gives HTTP 404
`File Not Found` naming the path, and in all three cases no provider
create-object call is attempted. -/
theorem uploadHandler_precondition_checks (h : Headers) (b : UploadBody)
    (fe : String → Bool) (dc : FileMetadata → UploadResult) :
    (jsTruthy (extractAccessToken h) = false →
      respOf (uploadHandler h b fe dc) =
        (401, .errBody "Invalid Credentials" [noAccessTokenDetail]) ∧
      (uploadHandler h b fe dc).providerCall = none) ∧
    (jsTruthy (extractAccessToken h) = true → jsTruthy b.filePath = false →
      respOf (uploadHandler h b fe dc) =
        (400, .errBody "Bad Request" [filePathRequiredDetail]) ∧
      (uploadHandler h b fe dc).providerCall = none) ∧
    (∀ p, jsTruthy (extractAccessToken h) = true → b.filePath = some p → p ≠ "" →
      fe p = false →
      respOf (uploadHandler h b fe dc) =
        (404, .errBody "File Not Found" [fileNotFoundDetail p]) ∧
      (uploadHandler h b fe dc).providerCall = none) := by
  refine ⟨fun htok => ?_, fun htok hfp => ?_, fun p htok hfp hne hfe => ?_⟩
  · simp [uploadHandler, respOf, htok]
  · simp [uploadHandler, respOf, htok, hfp]
  · have hpt : jsTruthy (some p) = true := by simp [jsTruthy, hne]
    simp [uploadHandler, respOf, htok, hfp, hpt, hfe]

/-- Witness for the amended claim C2, instantiating its 404 branch at a
concrete request: valid token, `filePath` supplied, file absent. -/
theorem uploadHandler_precondition_checks_witness :
    respOf (uploadHandler ⟨some "Bearer tok123", none⟩ ⟨some "/missing/file.mp4", none, none, none⟩
        (fun _ => false) (fun _ => .failure ⟨none, none⟩)) =
      (404, .errBody "File Not Found" [fileNotFoundDetail "/missing/file.mp4"]) ∧
    (uploadHandler ⟨some "Bearer tok123", none⟩ ⟨some "/missing/file.mp4", none, none, none⟩
        (fun _ => false) (fun _ => .failure ⟨none, none⟩)).providerCall = none :=
  (uploadHandler_precondition_checks ⟨some "Bearer tok123", none⟩
      ⟨some "/missing/file.mp4", none, none, none⟩ (fun _ => false)
      (fun _ => .failure ⟨none, none⟩)).2.2 "/missing/file.mp4"
    (by decide) rfl (by decide) rfl

/-!
Claims C3, C4 and C5 concern the catch block of `POST /upload`
(server.js lines 151-188): mapping a failed `drive.files.create` call to
the relay response.
-/

/-- Claim C3: for every failed provider create-object call on
`POST /upload` whose error payload is structured and carries provider
error code 401, the relay responds HTTP 401 with error kind
`Invalid Credentials` and details equal to the provider error-detail
list if present, else a single synthesized detail describing an
expired/invalid token. -/
theorem uploadHandler_google401_mapping (h : Headers) (b : UploadBody)
    (fe : String → Bool) (dc : FileMetadata → UploadResult) (p : String)
    (msg : Option String) (st : Option Nat) (ge : GoogleErrorPayload) :
    jsTruthy (extractAccessToken h) = true →
    b.filePath = some p → p ≠ "" → fe p = true →
    dc (buildFileMetadata p b.fileName b.folderId b.mimeType) =
      .failure { message := msg
                 response := some { status := st, data := some { error := some ge } } } →
    ge.code = some 401 →
    respOf (uploadHandler h b fe dc) =
      (401, .errBody "Invalid Credentials" (ge.errors.getD [expiredTokenDetail])) := by
  intro htok hfp hne hfe hdc hcode
  have hpt : jsTruthy (some p) = true := by simp [jsTruthy, hne]
  simp [uploadHandler, respOf, htok, hfp, hpt, hfe, hdc, structuredOf, hcode]

/-- Witness for claim C3 at a concrete request whose provider call fails
with a structured 401 payload carrying no error list, producing the
synthesized detail. -/
theorem uploadHandler_google401_mapping_witness :
    respOf (uploadHandler ⟨some "Bearer expiredTok", none⟩
        ⟨some "/tmp/v.mp4", none, none, none⟩ (fun _ => true)
        (fun _ => .failure ⟨some "Invalid Credentials",
          some ⟨some 401, some ⟨some ⟨some 401, some "Invalid Credentials", none⟩⟩⟩⟩)) =
      (401, .errBody "Invalid Credentials" [expiredTokenDetail]) :=
  uploadHandler_google401_mapping ⟨some "Bearer expiredTok", none⟩
    ⟨some "/tmp/v.mp4", none, none, none⟩ (fun _ => true)
    (fun _ => .failure ⟨some "Invalid Credentials",
      some ⟨some 401, some ⟨some ⟨some 401, some "Invalid Credentials", none⟩⟩⟩⟩)
    "/tmp/v.mp4" (some "Invalid Credentials") (some 401)
    ⟨some 401, some "Invalid Credentials", none⟩
    (by decide) rfl (by decide) rfl rfl rfl

/-- Claim C4 fails on the code: for a structured provider error with code
500, HTTP status 502 and the empty string as its message, the claim
dictates that the relay message equal the provider message (it is
present, hence no fallback), yet the code answers with the generic
`Google Drive API Error` because the empty message is falsy in the
`googleError.message || ...` test. -/
theorem uploadHandler_googleOther_claim_counterexample :
    respOf (uploadHandler ⟨some "Bearer tokABC", none⟩
        ⟨some "/tmp/v.mp4", none, none, none⟩ (fun _ => true)
        (fun _ => .failure ⟨some "request failed",
          some ⟨some 502, some ⟨some ⟨some 500, some "", some []⟩⟩⟩⟩)) =
      (502, .errBody "Google Drive API Error" []) ∧
    respOf (uploadHandler ⟨some "Bearer tokABC", none⟩
        ⟨some "/tmp/v.mp4", none, none, none⟩ (fun _ => true)
        (fun _ => .failure ⟨some "request failed",
          some ⟨some 502, some ⟨some ⟨some 500, some "", some []⟩⟩⟩⟩)) ≠
      (502, .errBody "" []) := by
  decide

/-- Claim C4 (amended): for every failed provider call on `POST /upload`
whose error payload is structured with a code other than 401, the relay
status equals the provider HTTP status when present and non-zero (500
otherwise), the error message equals the provider message when present
and non-empty (the generic `Google Drive API Error` otherwise), and the
details equal the provider error list when present (the empty list
otherwise). -/
theorem uploadHandler_googleOther_mapping (h : Headers) (b : UploadBody)
    (fe : String → Bool) (dc : FileMetadata → UploadResult) (p : String)
    (msg : Option String) (st : Option Nat) (ge : GoogleErrorPayload) :
    jsTruthy (extractAccessToken h) = true →
    b.filePath = some p → p ≠ "" → fe p = true →
    dc (buildFileMetadata p b.fileName b.folderId b.mimeType) =
      .failure { message := msg
                 response := some { status := st, data := some { error := some ge } } } →
    ge.code ≠ some 401 →
    respOf (uploadHandler h b fe dc) =
      (jsOrNat st 500,
       .errBody (jsOrStr ge.message "Google Drive API Error") (ge.errors.getD [])) := by
  intro htok hfp hne hfe hdc hcode
  have hpt : jsTruthy (some p) = true := by simp [jsTruthy, hne]
  have hcodeb : (ge.code == some 401) = false := by
    simpa using hcode
  simp [uploadHandler, respOf, htok, hfp, hpt, hfe, hdc, structuredOf, hcodeb]

/-- Witness for the amended claim C4 at a concrete request whose provider
call fails with a structured 403 payload carrying its own message and
error list. -/
theorem uploadHandler_googleOther_mapping_witness :
    respOf (uploadHandler ⟨some "Bearer tokDEF", none⟩
        ⟨some "/tmp/v.mp4", none, none, none⟩ (fun _ => true)
        (fun _ => .failure ⟨some "request failed",
          some ⟨some 403, some ⟨some ⟨some 403, some "Rate limit exceeded",
            some [⟨some "Rate limit exceeded", some "usageLimits", some "rateLimitExceeded",
                   none, none⟩]⟩⟩⟩⟩)) =
      (403, .errBody "Rate limit exceeded"
        [⟨some "Rate limit exceeded", some "usageLimits", some "rateLimitExceeded",
          none, none⟩]) :=
  uploadHandler_googleOther_mapping ⟨some "Bearer tokDEF", none⟩
    ⟨some "/tmp/v.mp4", none, none, none⟩ (fun _ => true)
    (fun _ => .failure ⟨some "request failed",
      some ⟨some 403, some ⟨some ⟨some 403, some "Rate limit exceeded",
        some [⟨some "Rate limit exceeded", some "usageLimits", some "rateLimitExceeded",
               none, none⟩]⟩⟩⟩⟩)
    "/tmp/v.mp4" (some "request failed") (some 403)
    ⟨some 403, some "Rate limit exceeded",
      some [⟨some "Rate limit exceeded", some "usageLimits", some "rateLimitExceeded",
             none, none⟩]⟩
    (by decide) rfl (by decide) rfl rfl (by decide)

/-- Claim C5: for every unstructured or local error raised during
`POST /upload` processing after the precondition checks — one failing the
`error.response && error.response.data && error.response.data.error`
chain — the relay responds HTTP 500 with error kind
`Internal Server Error` and a single detail whose message is the error
message or, when that is absent or empty, the generic
`An unexpected error occurred`. -/
theorem uploadHandler_unstructured_error_mapping (h : Headers) (b : UploadBody)
    (fe : String → Bool) (dc : FileMetadata → UploadResult) (p : String)
    (e : JsError) :
    jsTruthy (extractAccessToken h) = true →
    b.filePath = some p → p ≠ "" → fe p = true →
    dc (buildFileMetadata p b.fileName b.folderId b.mimeType) = .failure e →
    structuredOf e = none →
    respOf (uploadHandler h b fe dc) =
      (500, .errBody "Internal Server Error"
        [internalErrorDetail (jsOrStr e.message "An unexpected error occurred")]) := by
  intro htok hfp hne hfe hdc hstr
  have hpt : jsTruthy (some p) = true := by simp [jsTruthy, hne]
  simp [uploadHandler, respOf, htok, hfp, hpt, hfe, hdc, hstr]

/-- Witness for claim C5 at a concrete request whose provider call throws
a bare connection error with no `response` structure. -/
theorem uploadHandler_unstructured_error_mapping_witness :
    respOf (uploadHandler ⟨some "Bearer tokGHI", none⟩
        ⟨some "/tmp/v.mp4", none, none, none⟩ (fun _ => true)
        (fun _ => .failure ⟨some "read ECONNRESET", none⟩)) =
      (500, .errBody "Internal Server Error" [internalErrorDetail "read ECONNRESET"]) :=
  uploadHandler_unstructured_error_mapping ⟨some "Bearer tokGHI", none⟩
    ⟨some "/tmp/v.mp4", none, none, none⟩ (fun _ => true)
    (fun _ => .failure ⟨some "read ECONNRESET", none⟩)
    "/tmp/v.mp4" ⟨some "read ECONNRESET", none⟩
    (by decide) rfl (by decide) rfl rfl rfl

/-!
Claim C6 concerns the destination metadata built at server.js lines
109-118 and sent to `drive.files.create`.  Read literally it fails when
`folderId` is supplied as the empty string: the claim names `root` as the
only folderId value for which the parent field is omitted, but the code
test `folderId && folderId !== \x27root\x27` also drops the falsy empty
string.
-/

/-- Claim C6 fails on the code: for an upload request passing the
precondition checks whose `folderId` is supplied as the empty string —
which differs from the sentinel `root` — the metadata sent to the
provider nevertheless carries no parent field, while the claim dictates a
parent container equal to that folderId. -/
theorem fileMetadata_claim_counterexample :
    ("" : String) ≠ "root" ∧
    (uploadHandler ⟨some "Bearer tokJKL", none⟩ ⟨some "/tmp/x.mp4", none, some "", none⟩
        (fun _ => true)
        (fun _ => .success ⟨none, none, none, none, none, none⟩)).providerCall =
      some { name := "x.mp4", mimeType := "video/mp4", parents := none } := by
  decide

/-- Claim C6 (amended): for every `POST /upload` request that passes the
precondition checks, the metadata sent to the provider has name equal to
`fileName` when supplied non-empty, else the basename of `filePath`;
content type equal to `mimeType` when supplied non-empty, else the fixed
default `video/mp4`; and a parent container equal to `folderId` exactly
when `folderId` is supplied, non-empty, and differs from the sentinel
`root` — otherwise no parent field is set at all. -/
theorem uploadHandler_metadata_construction (h : Headers) (b : UploadBody)
    (fe : String → Bool) (dc : FileMetadata → UploadResult) (p : String) :
    jsTruthy (extractAccessToken h) = true →
    b.filePath = some p → p ≠ "" → fe p = true →
    (uploadHandler h b fe dc).providerCall =
      some (buildFileMetadata p b.fileName b.folderId b.mimeType) ∧
    (buildFileMetadata p b.fileName b.folderId b.mimeType).name =
      jsOrStr b.fileName (basename p) ∧
    (buildFileMetadata p b.fileName b.folderId b.mimeType).mimeType =
      jsOrStr b.mimeType "video/mp4" ∧
    (buildFileMetadata p b.fileName b.folderId b.mimeType).parents =
      (match b.folderId with
       | some f => if f ≠ "" ∧ f ≠ "root" then some [f] else none
       | none => none) := by
  intro htok hfp hne hfe
  have hpt : jsTruthy (some p) = true := by simp [jsTruthy, hne]
  refine ⟨?_, ?_, ?_, ?_⟩
  · cases hres : dc (buildFileMetadata p b.fileName b.folderId b.mimeType) with
    | success d => simp [uploadHandler, htok, hfp, hpt, hfe, hres]
    | failure e =>
      cases hstr : structuredOf e with
      | none => simp [uploadHandler, htok, hfp, hpt, hfe, hres, hstr]
      | some sge =>
        by_cases hcode : (sge.2.code == some 401) = true <;>
          simp [uploadHandler, htok, hfp, hpt, hfe, hres, hstr, hcode]
  · by_cases hc : (jsTruthy b.folderId && !(b.folderId.getD "" == "root")) = true <;>
      simp [buildFileMetadata, hc]
  · by_cases hc : (jsTruthy b.folderId && !(b.folderId.getD "" == "root")) = true <;>
      simp [buildFileMetadata, hc]
  · cases hfld : b.folderId with
    | none => simp [buildFileMetadata, jsTruthy]
    | some f =>
      by_cases hf : f = ""
      · simp [buildFileMetadata, jsTruthy, hf]
      · by_cases hr : f = "root" <;>
          simp [buildFileMetadata, jsTruthy, hf, hr]

/-- Witness for the amended claim C6 at a concrete request supplying a
file name, a regular folder id and a mime type. -/
theorem uploadHandler_metadata_construction_witness :
    (uploadHandler ⟨some "Bearer tokMNO", none⟩
        ⟨some "/videos/raw/clip01.mp4", some "episode.mp4", some "folder123", some "video/webm"⟩
        (fun _ => true)
        (fun _ => .success ⟨none, none, none, none, none, none⟩)).providerCall =
      some (buildFileMetadata "/videos/raw/clip01.mp4" (some "episode.mp4")
        (some "folder123") (some "video/webm")) ∧
    (buildFileMetadata "/videos/raw/clip01.mp4" (some "episode.mp4")
        (some "folder123") (some "video/webm")).name =
      jsOrStr (some "episode.mp4") (basename "/videos/raw/clip01.mp4") ∧
    (buildFileMetadata "/videos/raw/clip01.mp4" (some "episode.mp4")
        (some "folder123") (some "video/webm")).mimeType =
      jsOrStr (some "video/webm") "video/mp4" ∧
    (buildFileMetadata "/videos/raw/clip01.mp4" (some "episode.mp4")
        (some "folder123") (some "video/webm")).parents =
      (match (some "folder123" : Option String) with
       | some f => if f ≠ "" ∧ f ≠ "root" then some [f] else none
       | none => none) :=
  uploadHandler_metadata_construction ⟨some "Bearer tokMNO", none⟩
    ⟨some "/videos/raw/clip01.mp4", some "episode.mp4", some "folder123", some "video/webm"⟩
    (fun _ => true) (fun _ => .success ⟨none, none, none, none, none, none⟩)
    "/videos/raw/clip01.mp4" (by decide) rfl (by decide) rfl

/-- Claim C7: for every `POST /upload` request that passes the
precondition checks and whose provider create-object call succeeds, the
relay responds HTTP 200 with body `\x7b file: \x7b id, name, webViewLink,
webContentLink, mimeType, size \x7d \x7d` — exactly the six fields of the
record returned by the provider call, each copied unchanged. -/
theorem uploadHandler_success_response (h : Headers) (b : UploadBody)
    (fe : String → Bool) (dc : FileMetadata → UploadResult) (p : String)
    (d : DriveFile) :
    jsTruthy (extractAccessToken h) = true →
    b.filePath = some p → p ≠ "" → fe p = true →
    dc (buildFileMetadata p b.fileName b.folderId b.mimeType) = .success d →
    respOf (uploadHandler h b fe dc) = (200, .fileBody d) := by
  intro htok hfp hne hfe hdc
  have hpt : jsTruthy (some p) = true := by simp [jsTruthy, hne]
  simp [uploadHandler, respOf, htok, hfp, hpt, hfe, hdc]

/-- Witness for claim C7 at a concrete request whose provider call
returns all six fields. -/
theorem uploadHandler_success_response_witness :
    respOf (uploadHandler ⟨some "Bearer tokPQR", none⟩
        ⟨some "/tmp/v.mp4", none, none, none⟩ (fun _ => true)
        (fun _ => .success ⟨some "f1", some "v.mp4", some "https://view", some "https://dl",
          some "video/mp4", some "1024"⟩)) =
      (200, .fileBody ⟨some "f1", some "v.mp4", some "https://view", some "https://dl",
        some "video/mp4", some "1024"⟩) :=
  uploadHandler_success_response ⟨some "Bearer tokPQR", none⟩
    ⟨some "/tmp/v.mp4", none, none, none⟩ (fun _ => true)
    (fun _ => .success ⟨some "f1", some "v.mp4", some "https://view", some "https://dl",
      some "video/mp4", some "1024"⟩)
    "/tmp/v.mp4"
    ⟨some "f1", some "v.mp4", some "https://view", some "https://dl",
      some "video/mp4", some "1024"⟩
    (by decide) rfl (by decide) rfl rfl

/-- Claim C8: for every `POST /test-auth` request — when no token is
extracted the response is 401 with the generic
`No access token provided` error; when a usable token is extracted and
the provider listing call, made with page size 1, succeeds, the response
is 200 with `status: authenticated`, a message, and `testFile` equal to
the first listed object or null; and when the provider call fails in any
way the response is 401 with `error: Invalid token` and `details` equal
to the error message. -/
theorem testAuthHandler_behaviour (h : Headers) (filesList : Nat → String → ListResult) :
    (extractAccessToken h = none →
      testAuthHandler h filesList =
        ⟨401, .errorOnly "No access token provided", none⟩) ∧
    (∀ fs, jsTruthy (extractAccessToken h) = true →
      filesList 1 "files(id, name)" = .success fs →
      testAuthHandler h filesList =
        ⟨200, .authBody "authenticated" "Token is valid" fs.head?,
         some (1, "files(id, name)")⟩) ∧
    (∀ e, jsTruthy (extractAccessToken h) = true →
      filesList 1 "files(id, name)" = .failure e →
      testAuthHandler h filesList =
        ⟨401, .invalidToken "Invalid token" e.message, some (1, "files(id, name)")⟩) := by
  refine ⟨fun htok => ?_, fun fs htok hcall => ?_, fun e htok hcall => ?_⟩
  · simp [testAuthHandler, htok, jsTruthy]
  · simp [testAuthHandler, htok, hcall]
  · simp [testAuthHandler, htok, hcall]

/-- Witness for claim C8, instantiating its success branch at a concrete
request whose listing call returns one file. -/
theorem testAuthHandler_behaviour_witness :
    testAuthHandler ⟨some "Bearer tokSTU", none⟩
        (fun _ _ => .success [⟨some "f1", some "doc.txt"⟩]) =
      ⟨200, .authBody "authenticated" "Token is valid" (some ⟨some "f1", some "doc.txt"⟩),
       some (1, "files(id, name)")⟩ :=
  (testAuthHandler_behaviour ⟨some "Bearer tokSTU", none⟩
      (fun _ _ => .success [⟨some "f1", some "doc.txt"⟩])).2.1
    [⟨some "f1", some "doc.txt"⟩] (by decide) rfl

/-- Claim C9 is contradicted by the code: server.js line 45 logs
`JSON.stringify(req.headers)`, so the complete bearer token appears
verbatim in the log output of the upload handler, while the dedicated
token log at line 66 prints only a 20-character prefix.  At the request
below — a 31-character token in the `Authorization` header — some emitted
log line contains the full token as a substring, and that token differs
from its truncated prefix form. -/
theorem uploadHandler_logs_complete_token :
    ∃ line ∈ (uploadHandler
        ⟨some ("Bearer " ++ "SECRETTOKEN0123456789ABCDEFGHIJ"), none⟩
        ⟨none, none, none, none⟩ (fun _ => false)
        (fun _ => .failure ⟨none, none⟩)).logs,
      (∃ pre suf, line = pre ++ "SECRETTOKEN0123456789ABCDEFGHIJ" ++ suf) ∧
      strTake "SECRETTOKEN0123456789ABCDEFGHIJ" 20 ++ "..." ≠
        "SECRETTOKEN0123456789ABCDEFGHIJ" := by
  refine ⟨"Headers: \x7b\n  \x22authorization\x22: \x22Bearer SECRETTOKEN0123456789ABCDEFGHIJ\x22\n\x7d",
    ?_, ⟨"Headers: \x7b\n  \x22authorization\x22: \x22Bearer ", "\x22\n\x7d", ?_⟩, ?_⟩
  · decide
  · decide
  · decide

/-- Claim C10: a request whose `Authorization` header is exactly
`Bearer ` (the prefix with an empty remainder) with no alternate auth
header makes credential extraction return the empty string, and both
`POST /upload` and `POST /test-auth` treat that empty string as an
absent token, answering with exactly the same 401 response as when no
credential is supplied at all. -/
theorem emptyBearer_treated_as_absent (b : UploadBody) (fe : String → Bool)
    (dc : FileMetadata → UploadResult) (lc : Nat → String → ListResult) :
    extractAccessToken ⟨some "Bearer ", none⟩ = some "" ∧
    respOf (uploadHandler ⟨some "Bearer ", none⟩ b fe dc) =
      respOf (uploadHandler ⟨none, none⟩ b fe dc) ∧
    respOf (uploadHandler ⟨some "Bearer ", none⟩ b fe dc) =
      (401, .errBody "Invalid Credentials" [noAccessTokenDetail]) ∧
    testAuthHandler ⟨some "Bearer ", none⟩ lc = testAuthHandler ⟨none, none⟩ lc ∧
    testAuthHandler ⟨some "Bearer ", none⟩ lc =
      ⟨401, .errorOnly "No access token provided", none⟩ := by
  have hx : jsTruthy (extractAccessToken ⟨some "Bearer ", none⟩) = false := by decide
  have hy : jsTruthy (extractAccessToken ⟨none, none⟩) = false := by decide
  refine ⟨by decide, ?_, ?_, ?_, ?_⟩
  · simp [uploadHandler, respOf, hx, hy]
  · simp [uploadHandler, respOf, hx]
  · simp [testAuthHandler, hx, hy]
  · simp [testAuthHandler, hx]

end GDriveRelay
